import Mathlib

/-!
# Verification of the long-term-memory core (`memory_utils.py`,
`memory_database.py`, `memory_retrieval.py`, `long_term_memory.py`)

Shallow embedding of the repository's memory subsystem.  Pure helper
functions of `MemoryUtils` become Lean functions; the SQLite-backed
`MemoryDatabase` becomes explicit state passing over a `Store` value whose
lists of records model the three tables; the wall clock (`datetime.now()`)
is threaded through as an explicit `now : String` argument.  Python floats
are modelled as exact rationals (`ℚ`); fallible paths (`KeyError` from
`config[...]` bracket access, `ValueError` raised by validation) are
modelled with `Except String`.
-/

namespace Memory

/-! ## `MemoryUtils` (memory_utils.py) -/

/-- A word character, as matched by the regex `\w` in `_tokenize`
(ASCII fragment: letters, digits, underscore). -/
def isWordChar (c : Char) : Bool :=
  c.isAlphanum || c = '_'

/-- Worker for `tokenizeChars`: `cur` is the (reversed) run of word
characters currently being accumulated. -/
def tokenizeAux (cur : List Char) : List Char → List (List Char)
  | [] => if cur.isEmpty then [] else [cur.reverse]
  | c :: cs =>
    if isWordChar c then tokenizeAux (c :: cur) cs
    else if cur.isEmpty then tokenizeAux [] cs
    else cur.reverse :: tokenizeAux [] cs

/-- `MemoryUtils._tokenize`: `re.findall(r'\w+', text)` — the maximal runs
of word characters of the string. -/
def tokenize (text : String) : List String :=
  (tokenizeAux [] text.toList).map List.asString

/-- `text.lower()`: lower-case every character. -/
def lowerStr (s : String) : String :=
  (s.toList.map Char.toLower).asString

/-- The token set `set(MemoryUtils._tokenize(text.lower()))` used by
`calculate_text_similarity`. -/
def tokenSet (text : String) : Finset String :=
  (tokenize (lowerStr text)).toFinset

/-- `MemoryUtils.calculate_text_similarity`: Jaccard similarity of the
lower-cased token sets; either argument empty (as a string, or after
tokenization) gives `0`. -/
def calculate_text_similarity (text1 text2 : String) : ℚ :=
  if text1 = "" ∨ text2 = "" then 0
  else
    let tokens1 := tokenSet text1
    let tokens2 := tokenSet text2
    if tokens1 = ∅ ∨ tokens2 = ∅ then 0
    else ((tokens1 ∩ tokens2).card : ℚ) / ((tokens1 ∪ tokens2).card : ℚ)

/-- `MemoryUtils.calculate_retrieval_boost`: `min(20.0, retrieval_count *
boost_factor)`. -/
def calculate_retrieval_boost (retrieval_count : ℕ) (boost_factor : ℚ) : ℚ :=
  min 20 ((retrieval_count : ℚ) * boost_factor)

/-- `MemoryUtils.merge_tags`: union of all the tag lists, deduplicated and
sorted ascending (Python: `sorted(list(set))`, sets updated per list). -/
def merge_tags (tags_list : List (List String)) : List String :=
  List.insertionSort (· ≤ ·) (tags_list.flatten.dedup)

/-- The stop-word set of `MemoryUtils.extract_keywords`. -/
def stopWords : List String :=
  ["the", "is", "at", "which", "on", "a", "an", "as", "are", "was", "were",
   "be", "been", "being", "have", "has", "had", "do", "does", "did",
   "will", "would", "should", "could", "may", "might", "must",
   "i", "you", "he", "she", "it", "we", "they", "them", "their",
   "this", "that", "these", "those", "and", "or", "but", "if", "then",
   "in", "of", "to", "for", "with", "from", "by"]

/-- Frequency count over a token list, preserving first-occurrence order of
the keys (models a Python `dict` built by `freq[token] = freq.get(token, 0)
+ 1`). -/
def addCount : List (String × ℕ) → String → List (String × ℕ)
  | [], t => [(t, 1)]
  | (s, n) :: rest, t =>
    if s = t then (s, n + 1) :: rest else (s, n) :: addCount rest t

/-- `MemoryUtils.extract_keywords`: tokenize the lower-cased text, drop
stop words and tokens of length ≤ 2, count frequencies and return the top
`max_keywords` tokens by descending count (stable: ties keep
first-occurrence order, as Python's stable `sorted` with `reverse=True`). -/
def extract_keywords (text : String) (max_keywords : ℕ) : List String :=
  if text = "" then []
  else
    let tokens := tokenize (lowerStr text)
    let filtered := tokens.filter (fun t => t ∉ stopWords && t.length > 2)
    let freq := filtered.foldl addCount []
    let sorted := List.insertionSort (fun p q : String × ℕ => q.2 ≤ p.2) freq
    (sorted.take max_keywords).map Prod.fst

/-- A digit run parsed as a number, `none` if any character is not a
digit. -/
def parseDigits : List Char → Option ℕ
  | [] => some 0
  | c :: cs =>
    if c.isDigit then
      (parseDigits cs).map (fun n => (c.toNat - '0'.toNat) * 10 ^ cs.length + n)
    else none

/-- `YYYY-MM-DD` with month 1–12 and day 1–31. -/
def validDatePart (l : List Char) : Bool :=
  match l with
  | [y1, y2, y3, y4, '-', m1, m2, '-', d1, d2] =>
    match parseDigits [y1, y2, y3, y4], parseDigits [m1, m2], parseDigits [d1, d2] with
    | some _, some m, some d => 1 ≤ m && m ≤ 12 && 1 ≤ d && d ≤ 31
    | _, _, _ => false
  | _ => false

/-- `HH:MM[:SS[.ffffff]]` with in-range fields. -/
def validTimePart (l : List Char) : Bool :=
  match l with
  | [h1, h2, ':', m1, m2] =>
    match parseDigits [h1, h2], parseDigits [m1, m2] with
    | some h, some m => h ≤ 23 && m ≤ 59
    | _, _ => false
  | [h1, h2, ':', m1, m2, ':', s1, s2] =>
    match parseDigits [h1, h2], parseDigits [m1, m2], parseDigits [s1, s2] with
    | some h, some m, some s => h ≤ 23 && m ≤ 59 && s ≤ 59
    | _, _, _ => false
  | h1 :: h2 :: ':' :: m1 :: m2 :: ':' :: s1 :: s2 :: '.' :: frac =>
    match parseDigits [h1, h2], parseDigits [m1, m2], parseDigits [s1, s2],
          parseDigits frac with
    | some h, some m, some s, some _ =>
      h ≤ 23 && m ≤ 59 && s ≤ 59 && (frac.length = 3 || frac.length = 6)
    | _, _, _, _ => false
  | _ => false

/-- Models acceptance by `datetime.fromisoformat` for the canonical
ISO-8601 forms the system produces and documents
(`YYYY-MM-DD[THH:MM[:SS[.ffffff]]]`). -/
def isoParsable (s : String) : Bool :=
  match s.splitOn "T" with
  | [d] => validDatePart d.toList
  | [d, t] => validDatePart d.toList && validTimePart t.toList
  | _ => false

/-! ## Data model (the three SQLite tables of memory_database.py)

Fields that no operation under verification reads or writes
(`duration`, `participants`, `location`, `sensory_data`, `categories`,
`associated_concepts`, …) are omitted from the record types; all
remaining columns are modelled. -/

/-- A row of the `episodic_memory` table. -/
structure EpisodicRecord where
  id : ℕ
  timestamp : String
  event_description : String
  context : Option String := none
  observations : Option String := none
  importance_score : ℚ := 50
  emotional_valence : ℚ := 0
  tags : List String := []
  retrieval_count : ℕ := 0
  last_accessed : Option String := none
  created_at : String := ""
  updated_at : String := ""
deriving DecidableEq

/-- A row of the `semantic_memory` table (`concept_name` is UNIQUE). -/
structure SemanticRecord where
  id : ℕ
  concept_name : String
  definition : String
  confidence_score : ℚ := 1/2
  tags : List String := []
  created_at : String := ""
  updated_at : String := ""
deriving DecidableEq

/-- A row of the `procedural_memory` table (`procedure_name` is UNIQUE). -/
structure ProceduralRecord where
  id : ℕ
  procedure_name : String
  description : String
  steps : List String
  success_rate : ℚ := 0
  execution_count : ℕ := 0
  average_duration : Option ℚ := none
  tags : List String := []
  last_executed : Option String := none
  created_at : String := ""
  updated_at : String := ""
deriving DecidableEq

/-- The state of `MemoryDatabase`: the three tables plus the
AUTOINCREMENT counters. -/
structure Store where
  episodic : List EpisodicRecord := []
  semantic : List SemanticRecord := []
  procedural : List ProceduralRecord := []
  nextEpisodicId : ℕ := 1
  nextSemanticId : ℕ := 1
  nextProceduralId : ℕ := 1
deriving DecidableEq

/-! ## `MemoryDatabase` (memory_database.py)

Each Python method on the shared connection becomes a function
`… → Store → result × Store`; methods that only SELECT return the store
unchanged. -/

/-- `SELECT * FROM episodic_memory WHERE id = ?` (no side effect). -/
def findEpisodic (st : Store) (memory_id : ℕ) : Option EpisodicRecord :=
  st.episodic.find? (fun r => r.id == memory_id)

/-- `MemoryDatabase.get_episodic_memory`: fetch the row, then (if it
exists) increment its stored `retrieval_count` and set `last_accessed`;
the *fetched* (pre-update) row is what is returned. -/
def get_episodic_memory (memory_id : ℕ) (now : String) (st : Store) :
    Option EpisodicRecord × Store :=
  match findEpisodic st memory_id with
  | none => (none, st)
  | some row =>
    (some row,
     { st with
        episodic := st.episodic.map (fun r =>
          if r.id == memory_id then
            { r with retrieval_count := r.retrieval_count + 1,
                     last_accessed := some now }
          else r) })

/-- Row order of `SELECT * FROM episodic_memory ORDER BY timestamp DESC`:
sorted by timestamp descending; ties keep table (insertion) order. -/
def episodicByTimestampDesc (rows : List EpisodicRecord) : List EpisodicRecord :=
  List.insertionSort (fun a b => b.timestamp ≤ a.timestamp) rows

/-- `MemoryDatabase.get_all_episodic_memories` (no `limit` is ever passed
by the code under verification). -/
def get_all_episodic_memories (st : Store) : List EpisodicRecord × Store :=
  (episodicByTimestampDesc st.episodic, st)

/-- `MemoryDatabase.add_episodic_memory`: insert with the next
AUTOINCREMENT id. -/
def add_episodic_memory (r : EpisodicRecord) (st : Store) : ℕ × Store :=
  let newId := st.nextEpisodicId
  (newId,
   { st with episodic := st.episodic ++ [{ r with id := newId }],
             nextEpisodicId := newId + 1 })

/-- `MemoryDatabase.update_episodic_memory` for the update dictionary
passed by its only caller, `LongTermMemory._merge_episodes`
(`retrieval_count`, `importance_score`, `tags`); also refreshes
`updated_at`, as the method does for every update. -/
def update_episodic_merge_fields (memory_id : ℕ) (cnt : ℕ) (imp : ℚ)
    (tags : List String) (now : String) (st : Store) : Bool × Store :=
  (st.episodic.any (fun r => r.id == memory_id),
   { st with
      episodic := st.episodic.map (fun r =>
        if r.id == memory_id then
          { r with retrieval_count := cnt, importance_score := imp,
                   tags := tags, updated_at := now }
        else r) })

/-- `MemoryDatabase.delete_episodic_memory`: delete the row, report
whether a row was deleted (`rowcount > 0`). -/
def delete_episodic_memory (memory_id : ℕ) (st : Store) : Bool × Store :=
  (st.episodic.any (fun r => r.id == memory_id),
   { st with episodic := st.episodic.filter (fun r => !(r.id == memory_id)) })

/-- `p` is a leading segment of `l`. -/
def startsWithList : List Char → List Char → Bool
  | [], _ => true
  | _ :: _, [] => false
  | p :: ps, c :: cs => p == c && startsWithList ps cs

/-- `p` occurs contiguously somewhere in `l`. -/
def containsList (p : List Char) : List Char → Bool
  | [] => startsWithList p []
  | c :: cs => startsWithList p (c :: cs) || containsList p cs

/-- SQLite `column LIKE '%query%'` (ASCII case-insensitive substring); a
NULL column never matches. -/
def likeMatch (column : Option String) (query : String) : Bool :=
  match column with
  | none => false
  | some s => containsList (lowerStr query).toList (lowerStr s).toList

/-- Row order of `ORDER BY importance_score DESC, timestamp DESC`. -/
def episodicByImportanceDesc (rows : List EpisodicRecord) : List EpisodicRecord :=
  List.insertionSort
    (fun a b => b.importance_score < a.importance_score ∨
      (a.importance_score = b.importance_score ∧ b.timestamp ≤ a.timestamp)) rows

/-- `MemoryDatabase.search_episodic`: LIKE-match on description, context
or observations; order by importance then timestamp, apply the limit.
A pure SELECT: the store comes back unchanged. -/
def search_episodic (query : String) (limit : ℕ) (st : Store) :
    List EpisodicRecord × Store :=
  ((episodicByImportanceDesc (st.episodic.filter (fun r =>
      likeMatch (some r.event_description) query ||
      likeMatch r.context query ||
      likeMatch r.observations query))).take limit,
   st)

/-- `json.dumps` of a tag list, as stored in the `tags` column. -/
def serializeTags (tags : List String) : String :=
  "[" ++ String.intercalate ", " (tags.map (fun t => "\"" ++ t ++ "\"")) ++ "]"

/-- `MemoryDatabase.filter_episodic`: conjunctive filters on timestamp
range, minimum importance, and substring match of each tag against the
serialized `tags` column; ordered by timestamp descending.  A pure
SELECT: the store comes back unchanged. -/
def filter_episodic (start_date end_date : Option String)
    (min_importance : Option ℚ) (tags : Option (List String)) (st : Store) :
    List EpisodicRecord × Store :=
  (episodicByTimestampDesc (st.episodic.filter (fun r =>
      (match start_date with | none => true | some s => s ≤ r.timestamp) &&
      (match end_date with | none => true | some e => r.timestamp ≤ e) &&
      (match min_importance with | none => true | some m => m ≤ r.importance_score) &&
      (match tags with
       | none => true
       | some ts => ts.all (fun t => likeMatch (some (serializeTags r.tags)) t)))),
   st)

/-- `SELECT * FROM semantic_memory WHERE concept_name = ?`. -/
def get_semantic_memory_by_concept (concept_name : String) (st : Store) :
    Option SemanticRecord × Store :=
  (st.semantic.find? (fun r => r.concept_name == concept_name), st)

/-- `MemoryDatabase.add_semantic_memory`; the UNIQUE constraint on
`concept_name` makes the INSERT fail (and leave the table unchanged) on a
duplicate name. -/
def add_semantic_memory (r : SemanticRecord) (st : Store) :
    Except String ℕ × Store :=
  if st.semantic.any (fun x => x.concept_name == r.concept_name) then
    (.error "UNIQUE constraint failed: semantic_memory.concept_name", st)
  else
    let newId := st.nextSemanticId
    (.ok newId,
     { st with semantic := st.semantic ++ [{ r with id := newId }],
               nextSemanticId := newId + 1 })

/-- `MemoryDatabase.delete_semantic_memory`. -/
def delete_semantic_memory (memory_id : ℕ) (st : Store) : Bool × Store :=
  (st.semantic.any (fun r => r.id == memory_id),
   { st with semantic := st.semantic.filter (fun r => !(r.id == memory_id)) })

/-- `SELECT * FROM procedural_memory WHERE procedure_name = ?`. -/
def get_procedural_memory_by_name (name : String) (st : Store) :
    Option ProceduralRecord × Store :=
  (st.procedural.find? (fun r => r.procedure_name == name), st)

/-- `MemoryDatabase.add_procedural_memory`; UNIQUE `procedure_name`. -/
def add_procedural_memory (r : ProceduralRecord) (st : Store) :
    Except String ℕ × Store :=
  if st.procedural.any (fun x => x.procedure_name == r.procedure_name) then
    (.error "UNIQUE constraint failed: procedural_memory.procedure_name", st)
  else
    let newId := st.nextProceduralId
    (.ok newId,
     { st with procedural := st.procedural ++ [{ r with id := newId }],
               nextProceduralId := newId + 1 })

/-- `MemoryDatabase.update_procedural_memory` for the update dictionary
passed by its only caller, `LongTermMemory.execute_procedure`
(`execution_count`, `success_rate`, `average_duration`, `last_executed`);
also refreshes `updated_at`. -/
def update_procedural_stats (memory_id : ℕ) (cnt : ℕ) (rate : ℚ)
    (avg : Option ℚ) (lastExec now : String) (st : Store) : Bool × Store :=
  (st.procedural.any (fun r => r.id == memory_id),
   { st with
      procedural := st.procedural.map (fun r =>
        if r.id == memory_id then
          { r with execution_count := cnt, success_rate := rate,
                   average_duration := avg, last_executed := some lastExec,
                   updated_at := now }
        else r) })

/-- `MemoryDatabase.delete_procedural_memory`. -/
def delete_procedural_memory (memory_id : ℕ) (st : Store) : Bool × Store :=
  (st.procedural.any (fun r => r.id == memory_id),
   { st with procedural := st.procedural.filter (fun r => !(r.id == memory_id)) })

/-! ## Configuration (the JSON dict loaded by `LongTermMemory.load_config`)

Each recognized section/key is an `Option`: `none` models an absent
dictionary key.  `d.get(key, default)` becomes `·.getD default`;
`d[key]` (bracket access, which raises `KeyError` when the key is
missing) becomes `dictGet`. -/

structure RetrievalCfg where
  default_limit : Option ℕ := none
  similarity_threshold : Option ℚ := none
deriving DecidableEq

structure ConsolidationCfg where
  enabled : Option Bool := none
  merge_similarity_threshold : Option ℚ := none
deriving DecidableEq

structure DecayCfg where
  enabled : Option Bool := none
  decay_rate : Option ℚ := none
  half_life_days : Option ℚ := none
deriving DecidableEq

structure ImportanceCfg where
  retrieval_boost_factor : Option ℚ := none
deriving DecidableEq

structure Config where
  retrieval : Option RetrievalCfg := none
  consolidation : Option ConsolidationCfg := none
  decay : Option DecayCfg := none
  importance_calculation : Option ImportanceCfg := none
deriving DecidableEq

/-- Python dictionary bracket access `d[key]`: raises `KeyError` when the
key is absent. -/
def dictGet {α : Type} (o : Option α) (key : String) : Except String α :=
  match o with
  | some v => .ok v
  | none => .error ("KeyError: " ++ key)

/-- The fallback configuration built by `LongTermMemory.load_config` when
no config file exists.  Note that it contains no `importance_calculation`
section and no `retrieval.similarity_threshold` /
`consolidation.merge_similarity_threshold` keys. -/
def defaultConfig : Config :=
  { retrieval := some { default_limit := some 50 },
    consolidation := some { enabled := some true },
    decay := some { enabled := some true, decay_rate := some (1/10),
                    half_life_days := some 30 } }

/-! ## `MemoryRetrieval` (memory_retrieval.py) -/

/-- The Jaccard cutoff
`self.config.get('retrieval', {}).get('similarity_threshold', 0.3)`. -/
def similarityThreshold (cfg : Config) : ℚ :=
  ((cfg.retrieval.getD {}).similarity_threshold).getD (3/10)

/-- The candidate pass of `MemoryRetrieval.retrieve_similar`, generic over
the record shape (the Python loop body is identical for the three kinds,
differing only in how id and text are read): skip the reference record by
id, compute the Jaccard similarity to the reference text, and keep a
record (paired with its `similarity_score`) only when the similarity is
**strictly greater** than the threshold. -/
def similarCandidates {α : Type} (getId : α → ℕ) (getText : α → String)
    (threshold : ℚ) (refId : Option ℕ) (refText : String) :
    List α → List (α × ℚ)
  | [] => []
  | m :: rest =>
    if some (getId m) = refId then similarCandidates getId getText threshold refId refText rest
    else
      let s := calculate_text_similarity refText (getText m)
      if threshold < s then
        (m, s) :: similarCandidates getId getText threshold refId refText rest
      else similarCandidates getId getText threshold refId refText rest

/-- Sort by `similarity_score` descending (Python's stable
`list.sort(key=..., reverse=True)`) and truncate to `limit`. -/
def retrieve_similar_list {α : Type} (getId : α → ℕ) (getText : α → String)
    (threshold : ℚ) (refId : Option ℕ) (refText : String) (limit : ℕ)
    (l : List α) : List (α × ℚ) :=
  (List.insertionSort (fun p q : α × ℚ => q.2 ≤ p.2)
    (similarCandidates getId getText threshold refId refText l)).take limit

/-- `MemoryRetrieval.retrieve_similar` for `memory_type='episodic'`:
reference text is `event_description`, candidates are all episodic rows. -/
def retrieve_similar_episodic (cfg : Config) (refId : Option ℕ)
    (refText : String) (limit : ℕ) (st : Store) : List (EpisodicRecord × ℚ) :=
  retrieve_similar_list (fun r => r.id) (fun r => r.event_description)
    (similarityThreshold cfg) refId refText limit
    (get_all_episodic_memories st).1

/-- `MemoryRetrieval.retrieve_similar` for `memory_type='semantic'`:
reference text is `definition`. -/
def retrieve_similar_semantic (cfg : Config) (refId : Option ℕ)
    (refText : String) (limit : ℕ) (st : Store) : List (SemanticRecord × ℚ) :=
  retrieve_similar_list (fun r => r.id) (fun r => r.definition)
    (similarityThreshold cfg) refId refText limit st.semantic

/-- `MemoryRetrieval.retrieve_similar` for `memory_type='procedural'`:
reference text is `description`. -/
def retrieve_similar_procedural (cfg : Config) (refId : Option ℕ)
    (refText : String) (limit : ℕ) (st : Store) : List (ProceduralRecord × ℚ) :=
  retrieve_similar_list (fun r => r.id) (fun r => r.description)
    (similarityThreshold cfg) refId refText limit st.procedural

/-- One loop iteration of `MemoryRetrieval.retrieve_by_importance`:
compute the adjusted importance of a single episode.  The temporal-decay
kernel `MemoryUtils.apply_temporal_decay` (floating-point `exp` over
wall-clock day differences) is abstracted as the function argument
`decayFn importance timestamp decay_rate half_life_days`; everything
else — in particular the two `KeyError`-raising bracket accesses
`self.config['decay']` and `self.config['importance_calculation']`, which
Python evaluates before the decay and boost computations — is modelled
exactly. -/
def adjustedImportance (decayFn : ℚ → String → ℚ → ℚ → ℚ) (cfg : Config)
    (apply_decay : Bool) (m : EpisodicRecord) : Except String ℚ :=
  if apply_decay && ((cfg.decay.getD {}).enabled).getD true then do
    let d ← dictGet cfg.decay "decay"
    let importance := decayFn m.importance_score m.timestamp
      (d.decay_rate.getD (1/10)) (d.half_life_days.getD 30)
    let ic ← dictGet cfg.importance_calculation "importance_calculation"
    let boost := calculate_retrieval_boost m.retrieval_count
      (ic.retrieval_boost_factor.getD (1/20))
    pure (importance + boost)
  else pure m.importance_score

/-- `MemoryRetrieval.retrieve_by_importance`: score every episode, keep
those whose adjusted importance reaches `min_importance`, sort descending
by adjusted importance (stable), truncate to `limit`. -/
def retrieve_by_importance (decayFn : ℚ → String → ℚ → ℚ → ℚ) (cfg : Config)
    (min_importance : ℚ) (apply_decay : Bool) (limit : ℕ) (st : Store) :
    Except String (List (EpisodicRecord × ℚ)) := do
  let memories := (get_all_episodic_memories st).1
  let important ← memories.foldlM (fun acc m => do
    let importance ← adjustedImportance decayFn cfg apply_decay m
    if min_importance ≤ importance then pure (acc ++ [(m, importance)])
    else pure acc) []
  pure ((List.insertionSort (fun p q : EpisodicRecord × ℚ => q.2 ≤ p.2)
    important).take limit)

/-! ## Validation (memory_utils.py) and the façade (long_term_memory.py) -/

/-- The keyword arguments `LongTermMemory.store_episode` accepts (the
fields the validator and insert path read). -/
structure EpisodeKwargs where
  timestamp : Option String := none
  context : Option String := none
  observations : Option String := none
  importance_score : Option ℚ := none
  emotional_valence : Option ℚ := none
  tags : Option (List String) := none
deriving DecidableEq

/-- `MemoryUtils.validate_episodic_memory` on the memory dict built by
`store_episode` (which always contains the `event_description` and
`timestamp` keys, possibly with empty/falsy values). -/
def validate_episodic_memory (event_description timestamp : String)
    (importance_score emotional_valence : Option ℚ) : Bool × Option String :=
  if event_description = "" then
    (false, some "Missing required field: event_description")
  else if timestamp = "" then
    (false, some "Missing required field: timestamp")
  else if !isoParsable timestamp then
    (false, some "Invalid timestamp format. Use ISO format (YYYY-MM-DDTHH:MM:SS)")
  else if (match importance_score with
           | some s => s < 0 || 100 < s
           | none => false) then
    (false, some "Importance score must be between 0 and 100")
  else if (match emotional_valence with
           | some v => v < -1 || 1 < v
           | none => false) then
    (false, some "Emotional valence must be between -1 and 1")
  else (true, none)

/-- `MemoryUtils.validate_semantic_memory`. -/
def validate_semantic_memory (concept_name definition : String)
    (confidence_score : Option ℚ) : Bool × Option String :=
  if concept_name = "" then
    (false, some "Missing required field: concept_name")
  else if definition = "" then
    (false, some "Missing required field: definition")
  else if (match confidence_score with
           | some s => s < 0 || 1 < s
           | none => false) then
    (false, some "Confidence score must be between 0 and 1")
  else (true, none)

/-- `MemoryUtils.validate_procedural_memory` (an empty `steps` list is
falsy in Python, so it fails the required-field check). -/
def validate_procedural_memory (procedure_name description : String)
    (steps : List String) (success_rate : Option ℚ) : Bool × Option String :=
  if procedure_name = "" then
    (false, some "Missing required field: procedure_name")
  else if description = "" then
    (false, some "Missing required field: description")
  else if steps = [] then
    (false, some "Missing required field: steps")
  else if (match success_rate with
           | some r => r < 0 || 100 < r
           | none => false) then
    (false, some "Success rate must be between 0 and 100")
  else (true, none)

/-- `LongTermMemory.store_episode`: build the memory dict (timestamp
defaults to `now`), validate — raising (`.error`, store untouched) on
failure — auto-extract tags when absent or empty, then insert. -/
def store_episode (event_description : String) (kwargs : EpisodeKwargs)
    (now : String) (st : Store) : Except String ℕ × Store :=
  let timestamp := kwargs.timestamp.getD now
  let (valid, err) := validate_episodic_memory event_description timestamp
    kwargs.importance_score kwargs.emotional_valence
  if !valid then
    (.error ("Invalid episodic memory: " ++ err.getD "None"), st)
  else
    let tags := match kwargs.tags with
      | none => extract_keywords event_description 5
      | some [] => extract_keywords event_description 5
      | some ts => ts
    let (newId, st') := add_episodic_memory
      { id := 0, timestamp := timestamp,
        event_description := event_description,
        context := kwargs.context, observations := kwargs.observations,
        importance_score := kwargs.importance_score.getD 50,
        emotional_valence := kwargs.emotional_valence.getD 0,
        tags := tags, retrieval_count := 0, last_accessed := none,
        created_at := now, updated_at := now } st
    (.ok newId, st')

/-- `LongTermMemory.store_concept`. -/
def store_concept (concept_name definition : String)
    (confidence_score : Option ℚ) (tagsArg : Option (List String))
    (now : String) (st : Store) : Except String ℕ × Store :=
  let (valid, err) := validate_semantic_memory concept_name definition
    confidence_score
  if !valid then
    (.error ("Invalid semantic memory: " ++ err.getD "None"), st)
  else
    let tags := match tagsArg with
      | none => extract_keywords definition 5
      | some [] => extract_keywords definition 5
      | some ts => ts
    add_semantic_memory
      { id := 0, concept_name := concept_name, definition := definition,
        confidence_score := confidence_score.getD (1/2), tags := tags,
        created_at := now, updated_at := now } st

/-- `LongTermMemory.store_procedure`. -/
def store_procedure (procedure_name description : String)
    (steps : List String) (success_rate : Option ℚ)
    (tagsArg : Option (List String)) (now : String) (st : Store) :
    Except String ℕ × Store :=
  let (valid, err) := validate_procedural_memory procedure_name description
    steps success_rate
  if !valid then
    (.error ("Invalid procedural memory: " ++ err.getD "None"), st)
  else
    let tags := match tagsArg with
      | none => extract_keywords description 5
      | some [] => extract_keywords description 5
      | some ts => ts
    add_procedural_memory
      { id := 0, procedure_name := procedure_name,
        description := description, steps := steps,
        success_rate := success_rate.getD 0, execution_count := 0,
        average_duration := none, tags := tags, last_executed := none,
        created_at := now, updated_at := now } st

/-- `LongTermMemory.recall_episode`: delegate to the side-effecting
`get_episodic_memory`. -/
def recall_episode (memory_id : ℕ) (now : String) (st : Store) :
    Option EpisodicRecord × Store :=
  get_episodic_memory memory_id now st

/-- `n` successive `recall_episode` calls on the same id. -/
def recallN (memory_id : ℕ) (now : String) : ℕ → Store → Store
  | 0, st => st
  | n + 1, st => recallN memory_id now n (recall_episode memory_id now st).2

/-- `LongTermMemory.get_important_episodes` →
`MemoryRetrieval.retrieve_by_importance` with `apply_decay=True`. -/
def get_important_episodes (decayFn : ℚ → String → ℚ → ℚ → ℚ) (cfg : Config)
    (min_importance : ℚ) (limit : ℕ) (st : Store) :
    Except String (List (EpisodicRecord × ℚ)) :=
  retrieve_by_importance decayFn cfg min_importance true limit st

/-- `LongTermMemory.execute_procedure`: look the procedure up by name
(no-op when absent) and persist the running-mean statistics update. -/
def execute_procedure (procedure_name : String) (success : Bool)
    (duration : Option ℚ) (now : String) (st : Store) : Store :=
  match (get_procedural_memory_by_name procedure_name st).1 with
  | none => st
  | some procedure =>
    let exec_count : ℕ := procedure.execution_count + 1
    let old_success_rate := procedure.success_rate
    let new_success_rate : ℚ :=
      (old_success_rate * ((exec_count : ℚ) - 1) +
        (if success then 100 else 0)) / (exec_count : ℚ)
    let new_avg : Option ℚ :=
      match duration with
      | some d =>
        let old_avg := procedure.average_duration.getD 0
        some ((old_avg * ((exec_count : ℚ) - 1) + d) / (exec_count : ℚ))
      | none => procedure.average_duration
    (update_procedural_stats procedure.id exec_count new_success_rate
      new_avg now now st).2

/-- `LongTermMemory.delete_memory`: dispatch on the `memory_type` string;
any unrecognized type returns `False` and touches nothing. -/
def delete_memory (memory_id : ℕ) (memory_type : String) (st : Store) :
    Bool × Store :=
  if memory_type = "episodic" then delete_episodic_memory memory_id st
  else if memory_type = "semantic" then delete_semantic_memory memory_id st
  else if memory_type = "procedural" then delete_procedural_memory memory_id st
  else (false, st)

/-! ## Consolidation (long_term_memory.py) -/

/-- A candidate descriptor appended to `stats['candidates']`. -/
structure MergeCandidate where
  id1 : ℕ
  id2 : ℕ
  similarity : ℚ
  desc1 : String
  desc2 : String
deriving DecidableEq

/-- The `stats` dict returned by `consolidate_memories`. -/
structure ConsolidationStats where
  merged : ℕ := 0
  archived : ℕ := 0
  candidates : List MergeCandidate := []
deriving DecidableEq

/-- `LongTermMemory._merge_episodes`: re-fetch both records through the
side-effecting `get_episodic_memory` (so both rows get their
`retrieval_count` bumped and `last_accessed` set before the merge), then
overwrite the survivor's fields from the *fetched* (pre-bump) values and
delete the duplicate.  If either fetch misses, stop — but the side
effects of the fetches that did succeed remain. -/
def merge_episodes (now : String) (keep_id merge_id : ℕ) (st : Store) : Store :=
  let (keepOpt, st1) := get_episodic_memory keep_id now st
  let (mergeOpt, st2) := get_episodic_memory merge_id now st1
  match keepOpt, mergeOpt with
  | some keep, some merge =>
    let (_, st3) := update_episodic_merge_fields keep_id
      (keep.retrieval_count + merge.retrieval_count)
      (max keep.importance_score merge.importance_score)
      (merge_tags [keep.tags, merge.tags]) now st2
    (delete_episodic_memory merge_id st3).2
  | _, _ => st2

/-- The inner `for episode2 in all_episodes[i+1:]` loop of
`consolidate_memories`, threading the `merged_ids` set, the `stats`
accumulator and the store. -/
def consolidateInner (threshold : ℚ) (now : String) (dry_run : Bool)
    (episode1 : EpisodicRecord) :
    List EpisodicRecord → List ℕ → ConsolidationStats → Store →
    List ℕ × ConsolidationStats × Store
  | [], mergedIds, stats, st => (mergedIds, stats, st)
  | episode2 :: rest, mergedIds, stats, st =>
    if episode2.id ∈ mergedIds then
      consolidateInner threshold now dry_run episode1 rest mergedIds stats st
    else
      let similarity := calculate_text_similarity
        episode1.event_description episode2.event_description
      if threshold ≤ similarity then
        let stats' := { stats with
          candidates := stats.candidates ++
            [{ id1 := episode1.id, id2 := episode2.id,
               similarity := similarity,
               desc1 := episode1.event_description.take 50,
               desc2 := episode2.event_description.take 50 }] }
        if dry_run then
          consolidateInner threshold now dry_run episode1 rest mergedIds stats' st
        else
          consolidateInner threshold now dry_run episode1 rest
            (episode2.id :: mergedIds)
            { stats' with merged := stats'.merged + 1 }
            (merge_episodes now episode1.id episode2.id st)
      else
        consolidateInner threshold now dry_run episode1 rest mergedIds stats st

/-- The outer `for i, episode1 in enumerate(all_episodes)` loop. -/
def consolidateOuter (threshold : ℚ) (now : String) (dry_run : Bool) :
    List EpisodicRecord → List ℕ → ConsolidationStats → Store →
    ConsolidationStats × Store
  | [], _, stats, st => (stats, st)
  | episode1 :: rest, mergedIds, stats, st =>
    if episode1.id ∈ mergedIds then
      consolidateOuter threshold now dry_run rest mergedIds stats st
    else
      let (mergedIds', stats', st') :=
        consolidateInner threshold now dry_run episode1 rest mergedIds stats st
      consolidateOuter threshold now dry_run rest mergedIds' stats' st'

/-- `LongTermMemory.consolidate_memories`: no-op when consolidation is
disabled; otherwise read the threshold (note the `KeyError`-raising
bracket access `self.config['consolidation']`), snapshot all episodes in
timestamp-descending order, and run the pairwise merge loops. -/
def consolidate_memories (cfg : Config) (now : String) (dry_run : Bool)
    (st : Store) : Except String (ConsolidationStats × Store) :=
  if !(((cfg.consolidation.getD {}).enabled).getD true) then
    .ok ({}, st)
  else
    match dictGet cfg.consolidation "consolidation" with
    | .error e => .error e
    | .ok c =>
      let threshold := c.merge_similarity_threshold.getD (85/100)
      let all_episodes := (get_all_episodic_memories st).1
      .ok (consolidateOuter threshold now dry_run all_episodes [] {} st)

/-! ## Auxiliary order structure for the similarity sort -/

/-- Descending order on the attached `similarity_score`, the sort key of
`retrieve_similar`'s `sort(key=..., reverse=True)`. -/
def simDescRel (α : Type) : (α × ℚ) → (α × ℚ) → Prop :=
  fun p q => q.2 ≤ p.2

instance (α : Type) : DecidableRel (simDescRel α) :=
  fun p q => inferInstanceAs (Decidable (q.2 ≤ p.2))

instance (α : Type) : IsTotal (α × ℚ) (simDescRel α) :=
  ⟨fun p q => le_total q.2 p.2⟩

instance (α : Type) : IsTrans (α × ℚ) (simDescRel α) :=
  ⟨fun _ _ _ hab hbc => le_trans hbc hab⟩

/-! ## Concrete instances used by the claim-level theorems -/

/-- Lower-id episode of the consolidation counterexample: earlier
timestamp, importance 40, two prior retrievals (Scenario 3 of the spec). -/
def c1_e1 : EpisodicRecord :=
  { id := 1, timestamp := "2025-01-01T00:00:00",
    event_description := "user clicked login", importance_score := 40,
    retrieval_count := 2 }

/-- Higher-id episode with the identical description, later timestamp,
importance 80, three prior retrievals. -/
def c1_e2 : EpisodicRecord :=
  { id := 2, timestamp := "2025-01-02T00:00:00",
    event_description := "user clicked login", importance_score := 80,
    retrieval_count := 3 }

/-- Store holding exactly the two counterexample episodes. -/
def c1_st : Store := { episodic := [c1_e2, c1_e1], nextEpisodicId := 3 }

/-- First-listed episode of the consolidation witness (same timestamp as
its partner, so the stable listing keeps insertion order). -/
def c1_w_a : EpisodicRecord :=
  { id := 1, timestamp := "2025-03-01T00:00:00",
    event_description := "user clicked login", importance_score := 40,
    retrieval_count := 2, tags := ["auth"] }

/-- Second-listed episode of the consolidation witness. -/
def c1_w_b : EpisodicRecord :=
  { id := 2, timestamp := "2025-03-01T00:00:00",
    event_description := "user clicked login", importance_score := 80,
    retrieval_count := 3, tags := ["login"] }

/-- Store for the consolidation witness. -/
def c1_w_st : Store := { episodic := [c1_w_a, c1_w_b], nextEpisodicId := 3 }

/-- A store with one episodic record; enough to drive
`retrieve_by_importance` into its per-record configuration reads. -/
def c2_st : Store :=
  { episodic := [{ id := 1, timestamp := "2025-01-01T00:00:00",
                   event_description := "alpha", importance_score := 90 }],
    nextEpisodicId := 2 }

/-- A fresh episodic record (`retrieval_count = 0`). -/
def c3_rec : EpisodicRecord :=
  { id := 1, timestamp := "2025-01-01T00:00:00", event_description := "alpha" }

/-- Store holding only `c3_rec`. -/
def c3_st : Store := { episodic := [c3_rec], nextEpisodicId := 2 }

/-- Configuration with `retrieval.similarity_threshold = 1/2`. -/
def c4_cfg : Config :=
  { retrieval := some { similarity_threshold := some (1/2) } }

/-- Reference record of the similarity counterexample. -/
def c4_ref : EpisodicRecord :=
  { id := 1, timestamp := "2025-01-01T00:00:00", event_description := "a b" }

/-- Candidate whose Jaccard similarity to the reference is exactly 1/2,
i.e. exactly the configured threshold. -/
def c4_other : EpisodicRecord :=
  { id := 2, timestamp := "2025-01-01T00:00:00", event_description := "a" }

/-- Store with the reference and the exactly-at-threshold candidate. -/
def c4_st : Store := { episodic := [c4_ref, c4_other], nextEpisodicId := 3 }

/-- Reference record of the similarity witness. -/
def c4_w_ref : EpisodicRecord :=
  { id := 1, timestamp := "2025-01-01T00:00:00",
    event_description := "alpha beta" }

/-- Other record with an identical description (similarity 1). -/
def c4_w_other : EpisodicRecord :=
  { id := 2, timestamp := "2025-01-01T00:00:00",
    event_description := "alpha beta" }

/-- Episodic record with five prior retrievals and a stored
`last_accessed`. -/
def c6_rec : EpisodicRecord :=
  { id := 1, timestamp := "2025-01-01T00:00:00",
    event_description := "alpha", retrieval_count := 5,
    last_accessed := some "2025-01-01T00:00:00" }

/-- Store holding only `c6_rec`. -/
def c6_st : Store := { episodic := [c6_rec], nextEpisodicId := 2 }

/-- Record for the claim-6 witness. -/
def c6_w_rec : EpisodicRecord :=
  { id := 4, timestamp := "2025-02-01T00:00:00",
    event_description := "beta", retrieval_count := 7 }

/-- Store for the claim-6 witness. -/
def c6_w_st : Store := { episodic := [c6_w_rec], nextEpisodicId := 5 }

/-- Episode whose description differs from its partner's as a byte string
but tokenizes (lower-cased) to the same token set. -/
def c7_e1 : EpisodicRecord :=
  { id := 1, timestamp := "2025-01-01T00:00:00",
    event_description := "Hello World" }

/-- Partner episode: same token set `{hello, world}`, different bytes. -/
def c7_e2 : EpisodicRecord :=
  { id := 2, timestamp := "2025-01-01T00:00:00",
    event_description := "world hello" }

/-- Store with the two token-equal episodes. -/
def c7_st : Store := { episodic := [c7_e1, c7_e2], nextEpisodicId := 3 }

/-- A fresh procedure (`execution_count = 0`, `success_rate = 0`, no
average duration). -/
def c8_proc : ProceduralRecord :=
  { id := 1, procedure_name := "w", description := "d", steps := ["a"] }

/-- Store holding only the fresh procedure. -/
def c8_st0 : Store := { procedural := [c8_proc], nextProceduralId := 2 }

/-- After recording (success=true, duration=2). -/
def c8_st1 : Store := execute_procedure "w" true (some 2) "t1" c8_st0

/-- After additionally recording (success=false, duration=4). -/
def c8_st2 : Store := execute_procedure "w" false (some 4) "t2" c8_st1

/-- After additionally recording (success=true, duration=6). -/
def c8_st3 : Store := execute_procedure "w" true (some 6) "t3" c8_st2

/-! ## Helper lemmas -/

lemma tokenSet_empty : tokenSet "" = ∅ := by decide

/-- Jaccard similarity is symmetric. -/
lemma similarity_symm (a b : String) :
    calculate_text_similarity a b = calculate_text_similarity b a := by
  simp only [calculate_text_similarity]
  by_cases h1 : a = "" <;> by_cases h2 : b = "" <;>
      by_cases h3 : tokenSet a = ∅ <;> by_cases h4 : tokenSet b = ∅ <;>
    simp [h1, h2, h3, h4, Finset.inter_comm, Finset.union_comm]

/-- Jaccard similarity of a string with itself is 1 whenever the string
has at least one word token. -/
lemma similarity_self_eq_one (a : String) (h : tokenSet a ≠ ∅) :
    calculate_text_similarity a a = 1 := by
  have ha : a ≠ "" := by
    intro h'
    exact h (h' ▸ tokenSet_empty)
  have hc : ((tokenSet a).card : ℚ) ≠ 0 := by
    exact_mod_cast Finset.card_ne_zero.mpr (Finset.nonempty_iff_ne_empty.mpr h)
  simp [calculate_text_similarity, ha, h, Finset.inter_self,
    Finset.union_self, div_self hc]

/-- The Jaccard similarity reaches 1 exactly when the two lower-cased
token sets are equal and non-empty. -/
lemma similarity_eq_one_iff (d1 d2 : String) :
    1 ≤ calculate_text_similarity d1 d2 ↔
      (tokenSet d1 = tokenSet d2 ∧ tokenSet d1 ≠ ∅) := by
  constructor
  · intro h
    simp only [calculate_text_similarity] at h
    split_ifs at h with hemp htok
    · norm_num at h
    · norm_num at h
    · push_neg at hemp htok
      obtain ⟨h3, h4⟩ := htok
      have hupos : 0 < ((tokenSet d1 ∪ tokenSet d2).card : ℚ) := by
        have hne : (tokenSet d1 ∪ tokenSet d2).Nonempty :=
          Finset.Nonempty.mono Finset.subset_union_left
            (Finset.nonempty_iff_ne_empty.mpr h3)
        exact_mod_cast Finset.card_pos.mpr hne
      rw [one_le_div hupos] at h
      have hcard : (tokenSet d1 ∪ tokenSet d2).card ≤
          (tokenSet d1 ∩ tokenSet d2).card := by exact_mod_cast h
      have heq := Finset.eq_of_subset_of_card_le Finset.inter_subset_union hcard
      refine ⟨Finset.Subset.antisymm ?_ ?_, h3⟩
      · intro x hx
        have hm : x ∈ tokenSet d1 ∪ tokenSet d2 := Finset.mem_union_left _ hx
        rw [← heq] at hm
        exact (Finset.mem_inter.mp hm).2
      · intro x hx
        have hm : x ∈ tokenSet d1 ∪ tokenSet d2 := Finset.mem_union_right _ hx
        rw [← heq] at hm
        exact (Finset.mem_inter.mp hm).1
  · rintro ⟨heq, hne⟩
    have h1 : d1 ≠ "" := fun h' => hne (h' ▸ tokenSet_empty)
    have h2 : d2 ≠ "" := by
      intro h'
      rw [h', tokenSet_empty] at heq
      exact hne heq
    have hne2 : tokenSet d2 ≠ ∅ := heq ▸ hne
    have hc : ((tokenSet d1).card : ℚ) ≠ 0 := by
      exact_mod_cast Finset.card_ne_zero.mpr (Finset.nonempty_iff_ne_empty.mpr hne)
    simp [calculate_text_similarity, h1, h2, hne, hne2, ← heq,
      Finset.inter_self, Finset.union_self, div_self hc]

/-- `find?` commutes with a map that leaves the sought predicate
untouched. -/
lemma find?_map_of_pred_eq {α : Type} (g : α → α) (p : α → Bool)
    (hp : ∀ x, p (g x) = p x) (l : List α) :
    (l.map g).find? p = (l.find? p).map g := by
  induction l with
  | nil => rfl
  | cons x xs ih =>
    by_cases hx : p x
    · simp [List.find?_cons, hp, hx]
    · simp only [List.map_cons, List.find?_cons]
      rw [hp x]
      simp [hx, ih]

/-- One `recall_episode` call bumps exactly the stored record's
`retrieval_count` and `last_accessed`. -/
lemma findEpisodic_recall_step (st : Store) (mid : ℕ) (now : String)
    (r : EpisodicRecord) (h : findEpisodic st mid = some r) :
    findEpisodic (recall_episode mid now st).2 mid =
      some { r with retrieval_count := r.retrieval_count + 1,
                    last_accessed := some now } := by
  have hup : ∀ x : EpisodicRecord,
      (((fun r' => if r'.id == mid then
          { r' with retrieval_count := r'.retrieval_count + 1,
                    last_accessed := some now }
        else r') x).id == mid) = (x.id == mid) := by
    intro x
    by_cases hx : x.id == mid <;> simp [hx]
  rw [findEpisodic] at h
  have hr : (r.id == mid) = true := by
    have hs := List.find?_some h
    simpa using hs
  have hid : r.id = mid := by simpa using hr
  simp only [recall_episode, get_episodic_memory, findEpisodic, h]
  rw [find?_map_of_pred_eq _ _ hup, h]
  simp [hid]

/-- The sorted-then-truncated similarity list is sorted. -/
lemma sortTake_sorted {α : Type} (cands : List (α × ℚ)) (limit : ℕ) :
    List.Sorted (simDescRel α)
      ((List.insertionSort (simDescRel α) cands).take limit) :=
  (List.sorted_insertionSort _ _).sublist (List.take_sublist _ _)

/-- Members of the sorted-then-truncated list come from the candidate
list. -/
lemma sortTake_subset {α : Type} (cands : List (α × ℚ)) (limit : ℕ) (p : α × ℚ)
    (hp : p ∈ (List.insertionSort (simDescRel α) cands).take limit) :
    p ∈ cands :=
  (List.perm_insertionSort (simDescRel α) cands).subset (List.take_subset _ _ hp)

/-- Every candidate either survives the truncation or is dominated: the
output is full and all its scores are at least the candidate's. -/
lemma sortTake_mem_or {α : Type} (cands : List (α × ℚ)) (limit : ℕ) (x : α × ℚ)
    (hx : x ∈ cands) :
    x ∈ (List.insertionSort (simDescRel α) cands).take limit ∨
    (((List.insertionSort (simDescRel α) cands).take limit).length = limit ∧
     ∀ p ∈ (List.insertionSort (simDescRel α) cands).take limit, x.2 ≤ p.2) := by
  have hperm := List.perm_insertionSort (simDescRel α) cands
  have hsorted := List.sorted_insertionSort (simDescRel α) cands
  have hins : x ∈ List.insertionSort (simDescRel α) cands := hperm.mem_iff.mpr hx
  rcases List.mem_append.mp
      ((List.take_append_drop limit (List.insertionSort (simDescRel α) cands)) ▸ hins)
    with htake | hdrop
  · exact Or.inl htake
  · right
    constructor
    · have hlt : limit < (List.insertionSort (simDescRel α) cands).length := by
        by_contra hle
        push_neg at hle
        rw [List.drop_eq_nil_of_le hle] at hdrop
        simp at hdrop
      rw [List.length_insertionSort] at hlt
      simp [List.length_take]
      omega
    · intro p hp
      exact (List.pairwise_append.mp
        ((List.take_append_drop limit (List.insertionSort (simDescRel α) cands)) ▸
          hsorted)).2.2 p hp x hdrop

/-- Everything `retrieve_similar` keeps comes from the candidate list,
beats the threshold strictly, and skips the reference id. -/
lemma mem_similarCandidates_fwd {α : Type} (getId : α → ℕ) (getText : α → String)
    (threshold : ℚ) (refId : Option ℕ) (refText : String) (l : List α)
    (p : α × ℚ) (hp : p ∈ similarCandidates getId getText threshold refId refText l) :
    p.1 ∈ l ∧ some (getId p.1) ≠ refId ∧
      p.2 = calculate_text_similarity refText (getText p.1) ∧ threshold < p.2 := by
  induction l with
  | nil => simp [similarCandidates] at hp
  | cons m rest ih =>
    rw [similarCandidates] at hp
    by_cases hskip : some (getId m) = refId
    · rw [if_pos hskip] at hp
      obtain ⟨h1, h2, h3, h4⟩ := ih hp
      exact ⟨List.mem_cons_of_mem _ h1, h2, h3, h4⟩
    · rw [if_neg hskip] at hp
      by_cases hthr : threshold < calculate_text_similarity refText (getText m)
      · rw [if_pos hthr] at hp
        rcases List.mem_cons.mp hp with heq | hmem
        · subst heq
          exact ⟨List.mem_cons_self _ _, hskip, rfl, hthr⟩
        · obtain ⟨h1, h2, h3, h4⟩ := ih hmem
          exact ⟨List.mem_cons_of_mem _ h1, h2, h3, h4⟩
      · rw [if_neg hthr] at hp
        obtain ⟨h1, h2, h3, h4⟩ := ih hp
        exact ⟨List.mem_cons_of_mem _ h1, h2, h3, h4⟩

/-- Conversely every non-reference record strictly above the threshold
appears among the candidates, paired with its similarity. -/
lemma mem_similarCandidates_bwd {α : Type} (getId : α → ℕ) (getText : α → String)
    (threshold : ℚ) (refId : Option ℕ) (refText : String) (l : List α)
    (m : α) (hm : m ∈ l) (hid : some (getId m) ≠ refId)
    (hthr : threshold < calculate_text_similarity refText (getText m)) :
    (m, calculate_text_similarity refText (getText m)) ∈
      similarCandidates getId getText threshold refId refText l := by
  induction l with
  | nil => simp at hm
  | cons x rest ih =>
    rw [similarCandidates]
    rcases List.mem_cons.mp hm with hxm | hmem
    · subst hxm
      rw [if_neg hid, if_pos hthr]
      exact List.mem_cons_self _ _
    · by_cases hskip : some (getId x) = refId
      · rw [if_pos hskip]
        exact ih hmem
      · rw [if_neg hskip]
        by_cases hx : threshold < calculate_text_similarity refText (getText x)
        · rw [if_pos hx]
          exact List.mem_cons_of_mem _ (ih hmem)
        · rw [if_neg hx]
          exact ih hmem

/-- Consolidating a store that lists exactly two sufficiently similar
episodes (the first-listed one in the timestamp-descending snapshot being
`a`) merges them into `a`: the survivor accumulates the retrieval counts,
takes the maximal importance and the merged tag list, and the second
record is gone. -/
lemma consolidate_two_listed (a b : EpisodicRecord) (t : ℚ)
    (now : String) (st : Store)
    (hep : st.episodic = [a, b])
    (hid : a.id ≠ b.id)
    (hts : b.timestamp ≤ a.timestamp)
    (hsim : t ≤ calculate_text_similarity a.event_description b.event_description) :
    (consolidate_memories
        { consolidation := some { enabled := some true,
                                  merge_similarity_threshold := some t } }
        now false st).toOption.map
      (fun p => (p.1.merged,
        (findEpisodic p.2 a.id).map
          (fun r => (r.retrieval_count, r.importance_score, r.tags)),
        (get_episodic_memory b.id now p.2).1)) =
      some (1,
        some (a.retrieval_count + b.retrieval_count,
          max a.importance_score b.importance_score,
          merge_tags [a.tags, b.tags]),
        none) := by
  have haa : (a.id == a.id) = true := by simp
  have hba : (b.id == a.id) = false := by simp [Ne.symm hid]
  have hab : (a.id == b.id) = false := by simp [hid]
  have hall : (get_all_episodic_memories st).1 = [a, b] := by
    show episodicByTimestampDesc st.episodic = [a, b]
    rw [hep, episodicByTimestampDesc]
    simp only [List.insertionSort, List.orderedInsert_nil]
    exact List.orderedInsert_of_le _ _ hts
  have hmerge : merge_episodes now a.id b.id st =
      { st with episodic :=
          [{ a with retrieval_count := a.retrieval_count + b.retrieval_count,
                    importance_score := max a.importance_score b.importance_score,
                    tags := merge_tags [a.tags, b.tags],
                    last_accessed := some now, updated_at := now }] } := by
    simp only [merge_episodes, get_episodic_memory, findEpisodic, hep,
      update_episodic_merge_fields, delete_episodic_memory,
      List.find?_cons, haa, hba, hab, List.map_cons, List.map_nil,
      List.filter, List.any_cons, List.any_nil]
    simp [haa, hba, hab]
    split <;> rfl
  have houter : consolidateOuter t now false [a, b] [] {} st =
      (⟨1, 0, [⟨a.id, b.id,
          calculate_text_similarity a.event_description b.event_description,
          a.event_description.take 50, b.event_description.take 50⟩]⟩,
       merge_episodes now a.id b.id st) := by
    simp [consolidateOuter, consolidateInner, hsim]
  simp only [consolidate_memories, dictGet, Option.getD, Bool.not_true,
    Bool.false_eq_true, if_false]
  rw [hall, houter, hmerge]
  simp [Except.toOption, findEpisodic, get_episodic_memory, hab]

/-! ## Claim C1 -/

/-- Claim C1, counterexample.  With two mergeable episodes where the
lower-id record `c1_e1` has the *earlier* timestamp, a non-dry-run
consolidation at threshold 0.85 deletes `c1_e1` and keeps `c1_e2`: the
surviving record is the higher-id one (retrieval count 2+3=5, importance
80), and `get_by_id` of the *lower* id returns none — the opposite of the
claim, which says the lower-id record survives and `e2` is deleted. -/
theorem claim1_counterexample :
    (consolidate_memories
        { consolidation := some { enabled := some true,
                                  merge_similarity_threshold := some (85/100) } }
        "2025-06-01T00:00:00" false c1_st).toOption.map
      (fun p => (p.1.merged,
        (findEpisodic p.2 c1_e2.id).map
          (fun r => (r.retrieval_count, r.importance_score, r.tags)),
        (get_episodic_memory c1_e1.id "2025-06-01T00:00:00" p.2).1)) =
      some (1,
        some (c1_e2.retrieval_count + c1_e1.retrieval_count,
          max c1_e2.importance_score c1_e1.importance_score,
          merge_tags [c1_e2.tags, c1_e1.tags]),
        none) := by
  apply consolidate_two_listed
  · rfl
  · decide
  · show ("2025-01-01T00:00:00" : String) ≤ "2025-01-02T00:00:00"
    simp
    decide
  · have h1 : calculate_text_similarity "user clicked login"
        "user clicked login" = 1 := similarity_self_eq_one _ (by decide)
    show (85/100 : ℚ) ≤ calculate_text_similarity "user clicked login"
      "user clicked login"
    rw [h1]
    norm_num

/-- Claim C1 (amended): for two episodic records whose descriptions have
Jaccard similarity at least the merge threshold, a non-dry-run
consolidation keeps the record that is listed *first* in the
timestamp-descending episode snapshot (not the lower-id record); the
survivor's retrieval_count is the sum of the two pre-consolidation
counts, its importance_score the maximum, its tags the sorted tag union,
and a subsequent get_by_id of the second-listed record returns none. -/
theorem claim1_theorem (a b : EpisodicRecord) (t : ℚ)
    (now : String) (st : Store)
    (hep : st.episodic = [a, b])
    (hid : a.id ≠ b.id)
    (hts : b.timestamp ≤ a.timestamp)
    (hsim : t ≤ calculate_text_similarity a.event_description b.event_description) :
    (consolidate_memories
        { consolidation := some { enabled := some true,
                                  merge_similarity_threshold := some t } }
        now false st).toOption.map
      (fun p => (p.1.merged,
        (findEpisodic p.2 a.id).map
          (fun r => (r.retrieval_count, r.importance_score, r.tags)),
        (get_episodic_memory b.id now p.2).1)) =
      some (1,
        some (a.retrieval_count + b.retrieval_count,
          max a.importance_score b.importance_score,
          merge_tags [a.tags, b.tags]),
        none) :=
  consolidate_two_listed a b t now st hep hid hts hsim

/-- Claim C1, witness: the amended theorem applied to a concrete
two-episode store (equal timestamps, so the first-listed record is the
first-inserted one). -/
theorem claim1_witness :
    c1_w_st.episodic = [c1_w_a, c1_w_b] ∧
    (consolidate_memories
        { consolidation := some { enabled := some true,
                                  merge_similarity_threshold := some (85/100) } }
        "2025-06-01T00:00:00" false c1_w_st).toOption.map
      (fun p => (p.1.merged,
        (findEpisodic p.2 c1_w_a.id).map
          (fun r => (r.retrieval_count, r.importance_score, r.tags)),
        (get_episodic_memory c1_w_b.id "2025-06-01T00:00:00" p.2).1)) =
      some (1,
        some (c1_w_a.retrieval_count + c1_w_b.retrieval_count,
          max c1_w_a.importance_score c1_w_b.importance_score,
          merge_tags [c1_w_a.tags, c1_w_b.tags]),
        none) := by
  refine ⟨rfl, claim1_theorem c1_w_a c1_w_b (85/100) "2025-06-01T00:00:00"
    c1_w_st rfl (by decide) (le_refl _) ?_⟩
  have h1 : calculate_text_similarity "user clicked login"
      "user clicked login" = 1 := similarity_self_eq_one _ (by decide)
  show (85/100 : ℚ) ≤ calculate_text_similarity "user clicked login"
    "user clicked login"
  rw [h1]
  norm_num

/-! ## Claim C2 -/

/-- Claim C2 (code bug): with at least one stored episode,
`retrieve_by_importance` / `get_important_episodes` does *not* fall back
to defaults on a missing configuration key — `self.config['decay']`
raises `KeyError` when the `decay` section is absent, and
`self.config['importance_calculation']` raises when that section is
absent (the latter also fires under the system's own built-in default
configuration).  This holds for every decay kernel `decayFn`. -/
theorem claim2_theorem :
    (∀ decayFn : ℚ → String → ℚ → ℚ → ℚ,
      get_important_episodes decayFn {} 70 20 c2_st =
        .error "KeyError: decay") ∧
    (∀ decayFn : ℚ → String → ℚ → ℚ → ℚ,
      get_important_episodes decayFn { decay := some {} } 70 20 c2_st =
        .error "KeyError: importance_calculation") ∧
    (∀ decayFn : ℚ → String → ℚ → ℚ → ℚ,
      get_important_episodes decayFn defaultConfig 70 20 c2_st =
        .error "KeyError: importance_calculation") :=
  ⟨fun _ => rfl, fun _ => rfl, fun _ => rfl⟩

/-! ## Claim C3 -/

/-- Claim C3: after `n` successful recall-by-id calls the stored
`retrieval_count` is the original count plus `n`, while
`search_episodic`, `filter_episodic` and `get_all_episodic_memories`
leave the store — and hence every stored `retrieval_count` —
unchanged. -/
theorem claim3_theorem :
    (∀ (st : Store) (mid : ℕ) (now : String) (r : EpisodicRecord) (n : ℕ),
      findEpisodic st mid = some r →
      (findEpisodic (recallN mid now n st) mid).map
        (fun x => x.retrieval_count) = some (r.retrieval_count + n)) ∧
    (∀ (q : String) (lim : ℕ) (st : Store),
      (search_episodic q lim st).2 = st) ∧
    (∀ (sd ed : Option String) (mi : Option ℚ) (tg : Option (List String))
       (st : Store), (filter_episodic sd ed mi tg st).2 = st) ∧
    (∀ st : Store, (get_all_episodic_memories st).2 = st) := by
  refine ⟨?_, fun _ _ _ => rfl, fun _ _ _ _ _ => rfl, fun _ => rfl⟩
  intro st mid now r n h
  induction n generalizing st r with
  | zero => simp [recallN, h]
  | succ k ih =>
    have hstep := findEpisodic_recall_step st mid now r h
    have hk := ih _ _ hstep
    rw [recallN, hk]
    simp
    omega

/-- Claim C3, witness: three recalls of a fresh record (count 0) leave a
stored count of 3. -/
theorem claim3_witness :
    findEpisodic c3_st 1 = some c3_rec ∧
    (findEpisodic (recallN 1 "2025-02-01T00:00:00" 3 c3_st) 1).map
      (fun x => x.retrieval_count) = some (c3_rec.retrieval_count + 3) :=
  ⟨rfl, claim3_theorem.1 c3_st 1 "2025-02-01T00:00:00" c3_rec 3 rfl⟩

/-! ## Claim C4 -/

/-- Claim C4, counterexample.  With the similarity threshold configured
to 1/2, a candidate whose Jaccard similarity to the reference is
*exactly* 1/2 is dropped by `retrieve_similar` (the code compares with
strict `>`), contradicting the claim that a record at exactly the
threshold is retained. -/
theorem claim4_counterexample :
    retrieve_similar_episodic c4_cfg (some 1) "a b" 5 c4_st = [] ∧
    calculate_text_similarity "a b" "a" = similarityThreshold c4_cfg := by
  have hi : (tokenSet "a b" ∩ tokenSet "a").card = 1 := by decide
  have hu : (tokenSet "a b" ∪ tokenSet "a").card = 2 := by decide
  have hs : calculate_text_similarity "a b" "a" = 1/2 := by
    simp only [calculate_text_similarity]
    rw [if_neg (by decide), if_neg (by decide), hi, hu]
    norm_num
  constructor
  · simp [retrieve_similar_episodic, retrieve_similar_list, similarCandidates,
      get_all_episodic_memories, episodicByTimestampDesc, c4_st, c4_ref,
      c4_other, similarityThreshold, c4_cfg, hs]
  · exact hs

/-- Claim C4 (amended): `retrieve_similar` returns exactly the other
records of the same kind (the reference excluded by id) whose Jaccard
similarity to the reference text is *strictly greater* than the
configured threshold — a record at exactly the threshold is dropped —
ordered by descending similarity and truncated to `limit`.  Stated over
the kind-generic candidate pass shared by the episodic, semantic and
procedural branches: (1) soundness of every returned record, (2) the
descending order, (3) the length bound, and (4) completeness — a
qualifying record is returned unless the result is already full of
records with at least its similarity. -/
theorem claim4_theorem (α : Type) (getId : α → ℕ)
    (getText : α → String) (threshold : ℚ) (refId : Option ℕ)
    (refText : String) (limit : ℕ) (l : List α) :
    (∀ p ∈ retrieve_similar_list getId getText threshold refId refText limit l,
       p.1 ∈ l ∧ some (getId p.1) ≠ refId ∧
       p.2 = calculate_text_similarity refText (getText p.1) ∧ threshold < p.2) ∧
    List.Sorted (simDescRel α)
      (retrieve_similar_list getId getText threshold refId refText limit l) ∧
    (retrieve_similar_list getId getText threshold refId refText limit l).length ≤ limit ∧
    (∀ m ∈ l, some (getId m) ≠ refId →
       threshold < calculate_text_similarity refText (getText m) →
       (m, calculate_text_similarity refText (getText m)) ∈
         retrieve_similar_list getId getText threshold refId refText limit l ∨
       ((retrieve_similar_list getId getText threshold refId refText limit l).length = limit ∧
        ∀ p ∈ retrieve_similar_list getId getText threshold refId refText limit l,
          calculate_text_similarity refText (getText m) ≤ p.2)) := by
  have hdef : retrieve_similar_list getId getText threshold refId refText limit l =
      (List.insertionSort (simDescRel α)
        (similarCandidates getId getText threshold refId refText l)).take limit := rfl
  refine ⟨?_, ?_, ?_, ?_⟩
  · intro p hp
    rw [hdef] at hp
    exact mem_similarCandidates_fwd _ _ _ _ _ _ _ (sortTake_subset _ _ _ hp)
  · rw [hdef]
    exact sortTake_sorted _ _
  · rw [hdef]
    exact List.length_take_le _ _
  · intro m hm hid hthr
    have hin := mem_similarCandidates_bwd getId getText threshold refId refText
      l m hm hid hthr
    rw [hdef]
    exact sortTake_mem_or _ _ _ hin

/-- Claim C4, witness: the completeness part applied to a concrete
two-record episodic table — the non-reference record with similarity 1
(strictly above the default threshold 3/10) is returned or dominated. -/
theorem claim4_witness :
    c4_w_other ∈ [c4_w_ref, c4_w_other] ∧
    ((c4_w_other,
        calculate_text_similarity "alpha beta" c4_w_other.event_description) ∈
      retrieve_similar_list (fun r => r.id) (fun r => r.event_description)
        (3/10) (some 1) "alpha beta" 5 [c4_w_ref, c4_w_other] ∨
     ((retrieve_similar_list (fun r => r.id) (fun r => r.event_description)
        (3/10) (some 1) "alpha beta" 5 [c4_w_ref, c4_w_other]).length = 5 ∧
      ∀ p ∈ retrieve_similar_list (fun r => r.id) (fun r => r.event_description)
        (3/10) (some 1) "alpha beta" 5 [c4_w_ref, c4_w_other],
        calculate_text_similarity "alpha beta" c4_w_other.event_description ≤ p.2)) := by
  refine ⟨by decide, (claim4_theorem EpisodicRecord (fun r => r.id)
    (fun r => r.event_description) (3/10) (some 1) "alpha beta" 5
    [c4_w_ref, c4_w_other]).2.2.2 c4_w_other (by decide) (by decide) ?_⟩
  have h1 : calculate_text_similarity "alpha beta" "alpha beta" = 1 :=
    similarity_self_eq_one _ (by decide)
  show (3/10 : ℚ) < calculate_text_similarity "alpha beta" "alpha beta"
  rw [h1]
  norm_num

/-! ## Claim C5 -/

/-- Claim C5, counterexample.  The string "!" is non-empty, yet its
self-similarity is 0, not 1: it has no word characters, so its token set
is empty and the similarity function returns 0. -/
theorem claim5_counterexample :
    calculate_text_similarity "!" "!" = 0 ∧ ("!" : String) ≠ "" := by
  constructor
  · have h : tokenSet "!" = ∅ := by decide
    simp [calculate_text_similarity, h]
  · decide

/-- Claim C5 (amended): the Jaccard text similarity is symmetric for all
strings, and `sim(a, a) = 1` holds for every string `a` whose lower-cased
token set is non-empty (i.e. containing at least one word character) —
not for every non-empty string. -/
theorem claim5_theorem :
    (∀ a b : String,
      calculate_text_similarity a b = calculate_text_similarity b a) ∧
    (∀ a : String, tokenSet a ≠ ∅ → calculate_text_similarity a a = 1) :=
  ⟨similarity_symm, similarity_self_eq_one⟩

/-- Claim C5, witness: reflexivity at the concrete token-bearing string
"ab". -/
theorem claim5_witness :
    tokenSet "ab" ≠ ∅ ∧ calculate_text_similarity "ab" "ab" = 1 :=
  ⟨by decide, claim5_theorem.2 "ab" (by decide)⟩

/-! ## Claim C6 -/

/-- Claim C6, counterexample.  The record returned by the episodic
read-by-id path is the *pre-update* row: the caller observes the
pre-increment retrieval_count (5) together with the stale `last_accessed`
(the old timestamp, not the `now` that the call itself just wrote into
the store) — exactly the joint observation the claim says can never
happen. -/
theorem claim6_counterexample :
    ((get_episodic_memory 1 "2025-06-02T10:00:00" c6_st).1.map
        (fun r => (r.retrieval_count, r.last_accessed)) =
      some (5, some "2025-01-01T00:00:00")) ∧
    ((findEpisodic (get_episodic_memory 1 "2025-06-02T10:00:00" c6_st).2 1).map
        (fun r => r.last_accessed) = some (some "2025-06-02T10:00:00")) ∧
    (some "2025-01-01T00:00:00" ≠ some "2025-06-02T10:00:00") := by
  refine ⟨?_, ?_, ?_⟩ <;> decide

/-- Claim C6 (amended): the episodic read-by-id path returns the
consistent *pre-update* snapshot of the record — the pre-increment
retrieval_count together with the pre-update last_accessed — while the
record stored after the call carries both the incremented count and the
fresh access time; no mixed old/new state is observable on either
side. -/
theorem claim6_theorem (st : Store) (mid : ℕ) (now : String)
    (r : EpisodicRecord) (h : findEpisodic st mid = some r) :
    (get_episodic_memory mid now st).1 = some r ∧
      (findEpisodic (get_episodic_memory mid now st).2 mid).map
        (fun x => (x.retrieval_count, x.last_accessed)) =
        some (r.retrieval_count + 1, some now) := by
  have hup : ∀ x : EpisodicRecord,
      (((fun r' => if r'.id == mid then
          { r' with retrieval_count := r'.retrieval_count + 1,
                    last_accessed := some now }
        else r') x).id == mid) = (x.id == mid) := by
    intro x
    by_cases hx : x.id == mid <;> simp [hx]
  rw [findEpisodic] at h
  have hr : (r.id == mid) = true := by
    have hs := List.find?_some h
    simpa using hs
  constructor
  · simp [get_episodic_memory, findEpisodic, h]
  · simp only [get_episodic_memory, findEpisodic, h]
    rw [find?_map_of_pred_eq _ _ hup, h]
    have hid : r.id = mid := by simpa using hr
    simp [hid]

/-- Claim C6, witness: the snapshot theorem at a concrete store. -/
theorem claim6_witness :
    findEpisodic c6_w_st 4 = some c6_w_rec ∧
    ((get_episodic_memory 4 "2025-06-02T10:00:00" c6_w_st).1 = some c6_w_rec ∧
      (findEpisodic (get_episodic_memory 4 "2025-06-02T10:00:00" c6_w_st).2 4).map
        (fun x => (x.retrieval_count, x.last_accessed)) =
        some (c6_w_rec.retrieval_count + 1, some "2025-06-02T10:00:00")) :=
  ⟨rfl, claim6_theorem c6_w_st 4 "2025-06-02T10:00:00" c6_w_rec rfl⟩

/-! ## Claim C7 -/

/-- Claim C7, counterexample.  "Hello World" and "world hello" are
different byte strings, yet a non-dry-run consolidation at threshold 1.0
merges them (merged = 1, the id-2 record is deleted): the merge test
compares lower-cased token *sets*, not bytes. -/
theorem claim7_counterexample :
    (consolidate_memories
        { consolidation := some { enabled := some true,
                                  merge_similarity_threshold := some 1 } }
        "2025-06-01T00:00:00" false c7_st).toOption.map
      (fun p => (p.1.merged,
        (findEpisodic p.2 c7_e1.id).map
          (fun r => (r.retrieval_count, r.importance_score, r.tags)),
        (get_episodic_memory c7_e2.id "2025-06-01T00:00:00" p.2).1)) =
      some (1,
        some (c7_e1.retrieval_count + c7_e2.retrieval_count,
          max c7_e1.importance_score c7_e2.importance_score,
          merge_tags [c7_e1.tags, c7_e2.tags]),
        none) ∧
    c7_e1.event_description ≠ c7_e2.event_description := by
  constructor
  · apply consolidate_two_listed
    · rfl
    · decide
    · exact le_refl _
    · exact (similarity_eq_one_iff "Hello World" "world hello").mpr
        ⟨by decide, by decide⟩
  · decide

/-- Claim C7 (amended): at merge threshold 1.0 the consolidation merge
test `similarity >= threshold` passes for a pair of descriptions exactly
when their lower-cased word-token sets are equal and non-empty — not when
the descriptions are byte-identical.  Distinct strings with the same
token set are merged, and identical strings without word characters are
not. -/
theorem claim7_theorem (d1 d2 : String) :
    1 ≤ calculate_text_similarity d1 d2 ↔
      (tokenSet d1 = tokenSet d2 ∧ tokenSet d1 ≠ ∅) :=
  similarity_eq_one_iff d1 d2

/-! ## Claim C8 -/

/-- Claim C8: recording an execution updates the procedure's statistics
as a running mean — the stored record afterwards has
`execution_count = n+1`,
`success_rate = (s·n + (100 if success else 0)) / (n+1)`, and
`average_duration = (d·n + duration) / (n+1)` when a duration is supplied
(with a missing stored average treated as 0), else the stored average is
preserved. -/
theorem claim8_theorem (st : Store) (name : String)
    (success : Bool) (duration : Option ℚ) (now : String)
    (p : ProceduralRecord)
    (h : (get_procedural_memory_by_name name st).1 = some p) :
    ((get_procedural_memory_by_name name
        (execute_procedure name success duration now st)).1.map
      (fun q => (q.execution_count, q.success_rate, q.average_duration))) =
      some (p.execution_count + 1,
        (p.success_rate * (p.execution_count : ℚ) +
          (if success then 100 else 0)) / ((p.execution_count : ℚ) + 1),
        (match duration with
         | some d => some ((p.average_duration.getD 0 * (p.execution_count : ℚ) + d) /
             ((p.execution_count : ℚ) + 1))
         | none => p.average_duration)) := by
  rw [get_procedural_memory_by_name] at h
  simp only at h
  have hname : (p.procedure_name == name) = true := by
    have hs := List.find?_some h
    simpa using hs
  simp only [execute_procedure, get_procedural_memory_by_name, h,
    update_procedural_stats]
  have hup : ∀ x : ProceduralRecord,
      (((fun r' => if r'.id == p.id then
          { r' with
              execution_count := p.execution_count + 1,
              success_rate := (p.success_rate * ((((p.execution_count + 1 : ℕ)) : ℚ) - 1) +
                (if success then 100 else 0)) / (((p.execution_count + 1 : ℕ)) : ℚ),
              average_duration :=
                match duration with
                | some d => some ((p.average_duration.getD 0 *
                    ((((p.execution_count + 1 : ℕ)) : ℚ) - 1) + d) /
                    (((p.execution_count + 1 : ℕ)) : ℚ))
                | none => p.average_duration,
              last_executed := some now, updated_at := now }
        else r') x).procedure_name == name) = (x.procedure_name == name) := by
    intro x
    by_cases hx : x.id == p.id <;> simp [hx, hname]
  rw [find?_map_of_pred_eq _ _ hup, h]
  have hcast : (((p.execution_count + 1 : ℕ)) : ℚ) - 1 = (p.execution_count : ℚ) := by
    push_cast
    ring
  simp [hcast]

/-- Claim C8, witness: one application of the running-mean theorem to the
fresh procedure, plus the claim's concrete scenario — executions
(true, 2), (false, 4), (true, 6) end at count 3, success rate 200/3 and
average duration 4. -/
theorem claim8_witness :
    (get_procedural_memory_by_name "w" c8_st0).1 = some c8_proc ∧
    ((get_procedural_memory_by_name "w"
        (execute_procedure "w" true (some 2) "t1" c8_st0)).1.map
      (fun q => (q.execution_count, q.success_rate, q.average_duration))) =
      some (1, 100, some 2) ∧
    ((get_procedural_memory_by_name "w" c8_st3).1.map
      (fun q => (q.execution_count, q.success_rate, q.average_duration))) =
      some (3, 200/3, some 4) := by
  refine ⟨rfl, ?_, ?_⟩
  · have h := claim8_theorem c8_st0 "w" true (some 2) "t1" c8_proc rfl
    norm_num [c8_proc] at h ⊢
    exact h
  · norm_num [c8_st3, c8_st2, c8_st1, c8_st0, c8_proc, execute_procedure,
      get_procedural_memory_by_name, update_procedural_stats, List.find?]

/-! ## Claim C9 -/

/-- Claim C9: each façade insert path (store_episode, store_concept,
store_procedure) validates before touching the Store — on any input the
validator rejects, the call raises the validation error and returns the
store byte-identical to what it was. -/
theorem claim9_theorem :
    (∀ (ed : String) (kwargs : EpisodeKwargs) (now : String) (st : Store),
      (validate_episodic_memory ed (kwargs.timestamp.getD now)
        kwargs.importance_score kwargs.emotional_valence).1 = false →
      store_episode ed kwargs now st =
        (.error ("Invalid episodic memory: " ++
          ((validate_episodic_memory ed (kwargs.timestamp.getD now)
            kwargs.importance_score kwargs.emotional_valence).2.getD "None")), st)) ∧
    (∀ (cn df : String) (conf : Option ℚ) (tg : Option (List String))
       (now : String) (st : Store),
      (validate_semantic_memory cn df conf).1 = false →
      store_concept cn df conf tg now st =
        (.error ("Invalid semantic memory: " ++
          ((validate_semantic_memory cn df conf).2.getD "None")), st)) ∧
    (∀ (pn ds : String) (steps : List String) (sr : Option ℚ)
       (tg : Option (List String)) (now : String) (st : Store),
      (validate_procedural_memory pn ds steps sr).1 = false →
      store_procedure pn ds steps sr tg now st =
        (.error ("Invalid procedural memory: " ++
          ((validate_procedural_memory pn ds steps sr).2.getD "None")), st)) := by
  refine ⟨?_, ?_, ?_⟩
  · intro ed kwargs now st h
    rcases hv : validate_episodic_memory ed (kwargs.timestamp.getD now)
      kwargs.importance_score kwargs.emotional_valence with ⟨valid, err⟩
    rw [hv] at h
    simp only at h
    subst h
    simp [store_episode, hv]
  · intro cn df conf tg now st h
    rcases hv : validate_semantic_memory cn df conf with ⟨valid, err⟩
    rw [hv] at h
    simp only at h
    subst h
    simp [store_concept, hv]
  · intro pn ds steps sr tg now st h
    rcases hv : validate_procedural_memory pn ds steps sr with ⟨valid, err⟩
    rw [hv] at h
    simp only at h
    subst h
    simp [store_procedure, hv]

/-- Claim C9, witness: one rejected input per insert path — an empty
event description, an empty definition, and an empty step list — each
leaving the empty store untouched. -/
theorem claim9_witness :
    ((validate_episodic_memory "" "2025-01-01T00:00:00" none none).1 = false ∧
      store_episode "" {} "2025-01-01T00:00:00" {} =
        (.error ("Invalid episodic memory: " ++
          ((validate_episodic_memory "" "2025-01-01T00:00:00" none none).2.getD
            "None")), ({} : Store))) ∧
    ((validate_semantic_memory "c" "" none).1 = false ∧
      store_concept "c" "" none none "2025-01-01T00:00:00" {} =
        (.error ("Invalid semantic memory: " ++
          ((validate_semantic_memory "c" "" none).2.getD "None")),
         ({} : Store))) ∧
    ((validate_procedural_memory "p" "d" [] none).1 = false ∧
      store_procedure "p" "d" [] none none "2025-01-01T00:00:00" {} =
        (.error ("Invalid procedural memory: " ++
          ((validate_procedural_memory "p" "d" [] none).2.getD "None")),
         ({} : Store))) :=
  ⟨⟨by decide, claim9_theorem.1 "" {} "2025-01-01T00:00:00" {} (by decide)⟩,
   ⟨by decide, claim9_theorem.2.1 "c" "" none none "2025-01-01T00:00:00" {}
      (by decide)⟩,
   ⟨by decide, claim9_theorem.2.2 "p" "d" [] none none "2025-01-01T00:00:00" {}
      (by decide)⟩⟩

/-! ## Claim C10 -/

/-- Claim C10: `delete_memory` with a memory_type other than 'episodic',
'semantic' or 'procedural' returns false and leaves the store
unchanged. -/
theorem claim10_theorem (mid : ℕ) (memory_type : String) (st : Store)
    (h1 : memory_type ≠ "episodic") (h2 : memory_type ≠ "semantic")
    (h3 : memory_type ≠ "procedural") :
    delete_memory mid memory_type st = (false, st) := by
  simp [delete_memory, h1, h2, h3]

/-- Claim C10, witness: deleting with the unknown type "workflow". -/
theorem claim10_witness :
    delete_memory 7 "workflow" ({} : Store) = (false, ({} : Store)) :=
  claim10_theorem 7 "workflow" {} (by decide) (by decide) (by decide)

end Memory
